import Mathlib

/-!
Verification of mpdsonic's API layer against its design specification.

The development shallowly embeds the relevant Rust source:
* `src/api/types.rs` — the opaque entity-ID codec (base64 over compact JSON),
* `src/api.rs` — authentication guard and reply-format negotiation,
* `src/api/retrieval.rs` — cover-art assembly loop and the stream endpoint,
* `src/api/error.rs` — the error taxonomy.

Byte strings are modelled as `List Nat` with every element `< 256`.
-/

namespace Mpdsonic


/-- Every element of the list is a byte value. -/
def ValidBytes (l : List Nat) : Prop := ∀ b ∈ l, b < 256

instance (l : List Nat) : Decidable (ValidBytes l) := by
  unfold ValidBytes; infer_instance

/-! ## Base64, standard alphabet with canonical padding

Embeds the `BASE64` engine of `src/api/types.rs`:
`GeneralPurpose::new(&alphabet::STANDARD, GeneralPurposeConfig::new())`,
i.e. the standard alphabet `A-Z a-z 0-9 + /` with `=` padding required
canonically on decode. -/

/-- The sextet-to-character table of `base64::alphabet::STANDARD`. -/
def b64AlphabetChar (n : Nat) : Nat :=
  if n < 26 then 65 + n
  else if n < 52 then 97 + (n - 26)
  else if n < 62 then 48 + (n - 52)
  else if n = 62 then 43
  else 47

/-- Inverse character table of the standard alphabet. -/
def b64DecodeChar (c : Nat) : Option Nat :=
  if 65 ≤ c ∧ c ≤ 90 then some (c - 65)
  else if 97 ≤ c ∧ c ≤ 122 then some (26 + (c - 97))
  else if 48 ≤ c ∧ c ≤ 57 then some (52 + (c - 48))
  else if c = 43 then some 62
  else if c = 47 then some 63
  else none

/-- Base64 encoding with `=` padding (`BASE64.encode`). -/
def b64Encode : List Nat → List Nat
  | [] => []
  | [b0] => [b64AlphabetChar (b0 / 4), b64AlphabetChar (b0 % 4 * 16), 61, 61]
  | [b0, b1] => [b64AlphabetChar (b0 / 4), b64AlphabetChar (b0 % 4 * 16 + b1 / 16),
                 b64AlphabetChar (b1 % 16 * 4), 61]
  | b0 :: b1 :: b2 :: rest =>
      b64AlphabetChar (b0 / 4) :: b64AlphabetChar (b0 % 4 * 16 + b1 / 16) ::
      b64AlphabetChar (b1 % 16 * 4 + b2 / 64) :: b64AlphabetChar (b2 % 64) :: b64Encode rest

/-- Base64 decoding with canonical padding (`BASE64.decode` with
`DecodePaddingMode::RequireCanonical` and trailing bits rejected). -/
def b64Decode : List Nat → Option (List Nat)
  | [] => some []
  | c0 :: c1 :: c2 :: c3 :: rest =>
    if c2 = 61 then
      if c3 = 61 ∧ rest = [] then
        match b64DecodeChar c0, b64DecodeChar c1 with
        | some n0, some n1 => if n1 % 16 = 0 then some [n0 * 4 + n1 / 16] else none
        | _, _ => none
      else none
    else if c3 = 61 then
      if rest = [] then
        match b64DecodeChar c0, b64DecodeChar c1, b64DecodeChar c2 with
        | some n0, some n1, some n2 =>
            if n2 % 4 = 0 then some [n0 * 4 + n1 / 16, n1 % 16 * 16 + n2 / 4] else none
        | _, _, _ => none
      else none
    else
      match b64DecodeChar c0, b64DecodeChar c1, b64DecodeChar c2, b64DecodeChar c3,
            b64Decode rest with
      | some n0, some n1, some n2, some n3, some bs =>
          some ((n0 * 4 + n1 / 16) :: (n1 % 16 * 16 + n2 / 4) :: (n2 % 4 * 64 + n3) :: bs)
      | _, _, _, _, _ => none
  | _ => none

/-- Characters of the standard base64 alphabet. -/
def isStdB64Char (c : Nat) : Bool :=
  (65 ≤ c && c ≤ 90) || (97 ≤ c && c ≤ 122) || (48 ≤ c && c ≤ 57) || c == 43 || c == 47

/-- Characters of the URL-safe base64 alphabet (`-` and `_` instead of `+` and `/`). -/
def isUrlSafeB64Char (c : Nat) : Bool :=
  (65 ≤ c && c ≤ 90) || (97 ≤ c && c ≤ 122) || (48 ≤ c && c ≤ 57) || c == 45 || c == 95

/-! ## Hexadecimal encoding (lowercase), as in `hex::encode` and serde_json's digit table -/

/-- Lowercase hexadecimal digit character. -/
def hexDigit (n : Nat) : Nat := if n < 10 then 48 + n else 87 + n

/-- Lowercase hex encoding of a byte string (`hex::encode`). -/
def hexEncode : List Nat → List Nat
  | [] => []
  | b :: bs => hexDigit (b / 16) :: hexDigit (b % 16) :: hexEncode bs

/-- Hexadecimal digit parsing as in serde_json's `\u` escape decoding. -/
def parseHexDigit (c : Nat) : Option Nat :=
  if 48 ≤ c ∧ c ≤ 57 then some (c - 48)
  else if 97 ≤ c ∧ c ≤ 102 then some (c - 87)
  else if 65 ≤ c ∧ c ≤ 70 then some (c - 55)
  else none

/-! ## JSON string escaping and parsing, as performed by serde_json at the byte level

The ID structs contain only string fields, so only JSON strings and objects
whose member values are strings are modelled. serde_json escapes the bytes
0x22, 0x5C and all bytes below 0x20 (with short forms for BS, TAB, LF, FF, CR
and lowercase hex \u00xx otherwise); all other bytes pass through verbatim. -/

/-- Escape sequence emitted for one byte by serde_json's compact serializer. -/
def jsonEscapeByte (b : Nat) : List Nat :=
  if b = 34 then [92, 34]
  else if b = 92 then [92, 92]
  else if b < 32 then
    if b = 8 then [92, 98]
    else if b = 9 then [92, 116]
    else if b = 10 then [92, 110]
    else if b = 12 then [92, 102]
    else if b = 13 then [92, 114]
    else [92, 117, 48, 48, hexDigit (b / 16), hexDigit (b % 16)]
  else [b]

/-- Escaped body of a JSON string literal. -/
def jsonEscapeBytes : List Nat → List Nat
  | [] => []
  | b :: bs => jsonEscapeByte b ++ jsonEscapeBytes bs

/-- A complete JSON string literal with surrounding quotes. -/
def jsonStringLit (s : List Nat) : List Nat := 34 :: jsonEscapeBytes s ++ [34]

/-- UTF-8 encoding of a unicode scalar value, used by serde_json when it
decodes a numeric escape into string bytes. -/
def utf8EncodeScalar (n : Nat) : List Nat :=
  if n < 128 then [n]
  else if n < 2048 then [192 + n / 64, 128 + n % 64]
  else if n < 65536 then [224 + n / 4096, 128 + n / 64 % 64, 128 + n % 64]
  else [240 + n / 262144, 128 + n / 4096 % 64, 128 + n / 64 % 64, 128 + n % 64]

/-- Single-character escapes recognized by serde_json after a backslash. -/
def jsonEscByte (e : Nat) : Option Nat :=
  if e = 34 then some 34
  else if e = 92 then some 92
  else if e = 47 then some 47
  else if e = 98 then some 8
  else if e = 102 then some 12
  else if e = 110 then some 10
  else if e = 114 then some 13
  else if e = 116 then some 9
  else none

/-- Decode one escape sequence after a backslash, as serde_json's
`parse_escape` does: the eight single-character escapes, and \uXXXX with
surrogate-pair combination, rejecting lone surrogates. Returns the produced
string bytes together with the number of input bytes consumed. -/
def parseEscape : List Nat → Option (List Nat × Nat)
  | [] => none
  | e :: rest =>
    match jsonEscByte e with
    | some b => some ([b], 1)
    | none =>
      if e = 117 then
        match rest with
        | h1 :: h2 :: h3 :: h4 :: rest2 =>
          match parseHexDigit h1, parseHexDigit h2, parseHexDigit h3, parseHexDigit h4 with
          | some d1, some d2, some d3, some d4 =>
            let n := ((d1 * 16 + d2) * 16 + d3) * 16 + d4
            if 55296 ≤ n ∧ n ≤ 56319 then
              match rest2 with
              | 92 :: 117 :: g1 :: g2 :: g3 :: g4 :: _ =>
                match parseHexDigit g1, parseHexDigit g2, parseHexDigit g3, parseHexDigit g4 with
                | some f1, some f2, some f3, some f4 =>
                  let m := ((f1 * 16 + f2) * 16 + f3) * 16 + f4
                  if 56320 ≤ m ∧ m ≤ 57343 then
                    some (utf8EncodeScalar (65536 + (n - 55296) * 1024 + (m - 56320)), 11)
                  else none
                | _, _, _, _ => none
              | _ => none
            else if 56320 ≤ n ∧ n ≤ 57343 then none
            else some (utf8EncodeScalar n, 5)
          | _, _, _, _ => none
        | _ => none
      else none

/-- Parse the body of a JSON string after the opening quote, as serde_json's
slice reader does: a closing quote ends the string, a backslash starts an
escape, raw control bytes are rejected, and every other byte is taken
verbatim. Returns the string's bytes and the unconsumed remainder. -/
def parseStringBody : List Nat → Option (List Nat × List Nat)
  | [] => none
  | c :: rest =>
    if c = 34 then some ([], rest)
    else if c = 92 then
      match parseEscape rest with
      | some (bs, k) => (parseStringBody (rest.drop k)).map (fun p => (bs ++ p.1, p.2))
      | none => none
    else if c < 32 then none
    else (parseStringBody rest).map (fun p => (c :: p.1, p.2))
termination_by l => l.length
decreasing_by
  · simp [List.length_drop]
    omega
  · simp

/-! ## JSON objects with string members

The five ID types serialize to compact JSON objects whose member values are
all strings, so the embedded parser covers exactly those object shapes (with
serde_json's whitespace skipping). The member loop is bounded by a fuel
argument set from the input length; the real parser likewise consumes at
least one byte per member, so the bound is never the limiting factor. -/

def nameKey : List Nat := [110, 97, 109, 101]

def artistKey : List Nat := [97, 114, 116, 105, 115, 116]

def pathKey : List Nat := [112, 97, 116, 104]

def jsonObj1 (k v : List Nat) : List Nat :=
  123 :: (jsonStringLit k ++ 58 :: jsonStringLit v ++ [125])

def jsonObj2 (k1 v1 k2 v2 : List Nat) : List Nat :=
  123 :: (jsonStringLit k1 ++ 58 :: jsonStringLit v1 ++
    44 :: jsonStringLit k2 ++ 58 :: jsonStringLit v2 ++ [125])

def skipWs : List Nat → List Nat
  | c :: r => if c = 32 ∨ c = 9 ∨ c = 10 ∨ c = 13 then skipWs r else c :: r
  | [] => []

def parseStringValue (l : List Nat) : Option (List Nat × List Nat) :=
  match skipWs l with
  | 34 :: rest => parseStringBody rest
  | _ => none

def parseMember (l : List Nat) : Option ((List Nat × List Nat) × List Nat) :=
  match parseStringValue l with
  | some (k, rest) =>
    match skipWs rest with
    | 58 :: rest2 =>
      match parseStringValue rest2 with
      | some (v, rest3) => some ((k, v), rest3)
      | none => none
    | _ => none
  | none => none

def parseMembers : Nat → List Nat → Option (List (List Nat × List Nat) × List Nat)
  | 0, _ => none
  | fuel + 1, l =>
    match parseMember l with
    | some (kv, rest) =>
      match skipWs rest with
      | 44 :: rest2 => (parseMembers fuel rest2).map (fun p => (kv :: p.1, p.2))
      | 125 :: rest2 => some ([kv], rest2)
      | _ => none
    | none => none

def parseObject (l : List Nat) : Option (List (List Nat × List Nat) × List Nat) :=
  match skipWs l with
  | 123 :: rest =>
    match skipWs rest with
    | 125 :: rest2 => some ([], rest2)
    | _ => parseMembers (rest.length + 1) rest
  | _ => none

/-! ## The opaque entity IDs of `src/api/types.rs`

Each ID serializes its fields (in declaration order) to a compact JSON
object via the derived serde `Serialize`, and the resulting bytes are
base64-encoded (`api_id_into_string!`). Decoding base64-decodes and runs the
derived `Deserialize` (`api_id_from_string!`); the derived struct visitors
accept members in any order, ignore unknown members, and reject duplicate or
missing declared fields, which `getUnique` mirrors. -/

/-- Field lookup as performed by a derived serde struct visitor: a duplicate
occurrence of the key or a missing key is an error. -/
def getUnique : List (List Nat × List Nat) → List Nat → Option (List Nat) → Option (List Nat)
  | [], _, acc => acc
  | (k, v) :: rest, key, acc =>
    if k = key then
      match acc with
      | none => getUnique rest key (some v)
      | some _ => none
    else getUnique rest key acc

structure ArtistID where
  name : List Nat
deriving DecidableEq

structure AlbumID where
  name : List Nat
  artist : List Nat
deriving DecidableEq

structure SongID where
  path : List Nat
deriving DecidableEq

structure PlaylistID where
  name : List Nat
deriving DecidableEq

/-- The untagged cover-art ID: either a song's file path or a playlist name. -/
inductive CoverArtID
  | Song (path : List Nat)
  | Playlist (name : List Nat)
deriving DecidableEq

def ArtistID.intoString (a : ArtistID) : List Nat := b64Encode (jsonObj1 nameKey a.name)

def ArtistID.fromJsonBytes (l : List Nat) : Option ArtistID :=
  (parseObject l).bind fun p => (getUnique p.1 nameKey none).map ArtistID.mk

def ArtistID.fromString (s : List Nat) : Option ArtistID :=
  (b64Decode s).bind ArtistID.fromJsonBytes

def AlbumID.intoString (a : AlbumID) : List Nat :=
  b64Encode (jsonObj2 nameKey a.name artistKey a.artist)

def AlbumID.fromJsonBytes (l : List Nat) : Option AlbumID :=
  (parseObject l).bind fun p =>
    (getUnique p.1 nameKey none).bind fun n =>
      (getUnique p.1 artistKey none).map fun ar => AlbumID.mk n ar

def AlbumID.fromString (s : List Nat) : Option AlbumID :=
  (b64Decode s).bind AlbumID.fromJsonBytes

def SongID.intoString (a : SongID) : List Nat := b64Encode (jsonObj1 pathKey a.path)

def SongID.fromJsonBytes (l : List Nat) : Option SongID :=
  (parseObject l).bind fun p => (getUnique p.1 pathKey none).map SongID.mk

def SongID.fromString (s : List Nat) : Option SongID :=
  (b64Decode s).bind SongID.fromJsonBytes

def PlaylistID.intoString (a : PlaylistID) : List Nat := b64Encode (jsonObj1 nameKey a.name)

def PlaylistID.fromJsonBytes (l : List Nat) : Option PlaylistID :=
  (parseObject l).bind fun p => (getUnique p.1 nameKey none).map PlaylistID.mk

def PlaylistID.fromString (s : List Nat) : Option PlaylistID :=
  (b64Decode s).bind PlaylistID.fromJsonBytes

def CoverArtID.intoString : CoverArtID → List Nat
  | .Song p => b64Encode (jsonObj1 pathKey p)
  | .Playlist n => b64Encode (jsonObj1 nameKey n)

/-- Untagged deserialization: try the `Song` variant (field `path`) first,
then the `Playlist` variant (field `name`), as serde's untagged enum does in
declaration order. -/
def CoverArtID.fromJsonBytes (l : List Nat) : Option CoverArtID :=
  (parseObject l).bind fun p =>
    match getUnique p.1 pathKey none with
    | some pa => some (CoverArtID.Song pa)
    | none => (getUnique p.1 nameKey none).map CoverArtID.Playlist

/-- Strip every leading occurrence of the `pl-` marker, as
`s.trim_start_matches("pl-")` does in `CoverArtID::try_from`. -/
def trimStartPl : List Nat → List Nat
  | a :: b :: c :: rest =>
    if a = 112 ∧ b = 108 ∧ c = 45 then trimStartPl rest else a :: b :: c :: rest
  | l => l

def CoverArtID.fromString (s : List Nat) : Option CoverArtID :=
  (b64Decode (trimStartPl s)).bind CoverArtID.fromJsonBytes

/-- ValidBytes of the fields of a CoverArtID. -/
def CoverArtID.Valid : CoverArtID → Prop
  | .Song p => ValidBytes p
  | .Playlist n => ValidBytes n

instance (c : CoverArtID) : Decidable c.Valid := by
  cases c <;> (unfold CoverArtID.Valid; infer_instance)

/-! ## Error taxonomy of `src/api/error.rs` -/

structure ApiError where
  code : Nat
  message : String
deriving DecidableEq

def ApiError.genericError : Option String → ApiError
  | some msg => ⟨0, "A generic error: " ++ msg⟩
  | none => ⟨0, "A generic error"⟩

def ApiError.missingParameter (msg : String) : ApiError :=
  ⟨10, "Required parameter is missing: " ++ msg⟩

def ApiError.authenticationFailed : ApiError := ⟨40, "Wrong username or password"⟩

def ApiError.notAuthorized (msg : String) : ApiError := ⟨50, msg⟩

def ApiError.notFound : ApiError := ⟨70, "The requested data was not found"⟩

/-! ## MD5, as computed by the `md5` crate for the token auth scheme -/

def rotl32 (x n : Nat) : Nat := ((x <<< n) % 4294967296) ||| (x >>> (32 - n))

def md5S : List Nat :=
  [7, 12, 17, 22, 7, 12, 17, 22, 7, 12, 17, 22, 7, 12, 17, 22,
   5, 9, 14, 20, 5, 9, 14, 20, 5, 9, 14, 20, 5, 9, 14, 20,
   4, 11, 16, 23, 4, 11, 16, 23, 4, 11, 16, 23, 4, 11, 16, 23,
   6, 10, 15, 21, 6, 10, 15, 21, 6, 10, 15, 21, 6, 10, 15, 21]

def md5K : List Nat :=
  [0xd76aa478, 0xe8c7b756, 0x242070db, 0xc1bdceee,
   0xf57c0faf, 0x4787c62a, 0xa8304613, 0xfd469501,
   0x698098d8, 0x8b44f7af, 0xffff5bb1, 0x895cd7be,
   0x6b901122, 0xfd987193, 0xa679438e, 0x49b40821,
   0xf61e2562, 0xc040b340, 0x265e5a51, 0xe9b6c7aa,
   0xd62f105d, 0x02441453, 0xd8a1e681, 0xe7d3fbc8,
   0x21e1cde6, 0xc33707d6, 0xf4d50d87, 0x455a14ed,
   0xa9e3e905, 0xfcefa3f8, 0x676f02d9, 0x8d2a4c8a,
   0xfffa3942, 0x8771f681, 0x6d9d6122, 0xfde5380c,
   0xa4beea44, 0x4bdecfa9, 0xf6bb4b60, 0xbebfbc70,
   0x289b7ec6, 0xeaa127fa, 0xd4ef3085, 0x04881d05,
   0xd9d4d039, 0xe6db99e5, 0x1fa27cf8, 0xc4ac5665,
   0xf4292244, 0x432aff97, 0xab9423a7, 0xfc93a039,
   0x655b59c3, 0x8f0ccc92, 0xffeff47d, 0x85845dd1,
   0x6fa87e4f, 0xfe2ce6e0, 0xa3014314, 0x4e0811a1,
   0xf7537e82, 0xbd3af235, 0x2ad7d2bb, 0xeb86d391]

/-- Little-endian 32-bit word number `j` of a 64-byte block. -/
def leWord (bs : List Nat) (j : Nat) : Nat :=
  bs.getD (4 * j) 0 + 256 * bs.getD (4 * j + 1) 0 + 65536 * bs.getD (4 * j + 2) 0 +
    16777216 * bs.getD (4 * j + 3) 0

def md5Step (block : List Nat) (st : Nat × Nat × Nat × Nat) (i : Nat) : Nat × Nat × Nat × Nat :=
  let a := st.1
  let b := st.2.1
  let c := st.2.2.1
  let d := st.2.2.2
  let fg : Nat × Nat :=
    if i < 16 then ((b &&& c) ||| ((b ^^^ 4294967295) &&& d), i)
    else if i < 32 then ((d &&& b) ||| ((d ^^^ 4294967295) &&& c), (5 * i + 1) % 16)
    else if i < 48 then (b ^^^ c ^^^ d, (3 * i + 5) % 16)
    else (c ^^^ (b ||| (d ^^^ 4294967295)), (7 * i) % 16)
  let f := (fg.1 + a + md5K.getD i 0 + leWord block fg.2) % 4294967296
  (d, (b + rotl32 f (md5S.getD i 0)) % 4294967296, b, c)

def md5Block (st : Nat × Nat × Nat × Nat) (block : List Nat) : Nat × Nat × Nat × Nat :=
  let r := (List.range 64).foldl (md5Step block) st
  ((st.1 + r.1) % 4294967296, (st.2.1 + r.2.1) % 4294967296,
   (st.2.2.1 + r.2.2.1) % 4294967296, (st.2.2.2 + r.2.2.2) % 4294967296)

def md5Blocks (st : Nat × Nat × Nat × Nat) (msg : List Nat) : Nat × Nat × Nat × Nat :=
  if h : msg = [] then st
  else md5Blocks (md5Block st (msg.take 64)) (msg.drop 64)
termination_by msg.length
decreasing_by
  simp only [List.length_drop]
  have := List.length_pos.mpr h
  omega

def toLE : Nat → Nat → List Nat
  | 0, _ => []
  | k + 1, x => x % 256 :: toLE k (x / 256)

/-- MD5 padding: a 0x80 byte, zeros to 56 mod 64, then the bit length as a
64-bit little-endian integer. -/
def md5Pad (msg : List Nat) : List Nat :=
  msg ++ 128 :: List.replicate ((119 - msg.length % 64) % 64) 0 ++
    toLE 8 (msg.length * 8 % 18446744073709551616)

def md5 (msg : List Nat) : List Nat :=
  let r := md5Blocks (0x67452301, 0xefcdab89, 0x98badcfe, 0x10325476) (md5Pad msg)
  toLE 4 r.1 ++ toLE 4 r.2.1 ++ toLE 4 r.2.2.1 ++ toLE 4 r.2.2.2

/-- The canonical lowercase hex rendering of an MD5 digest, matching the
Debug formatting applied to `md5::compute(...)` in `authenticate`. -/
def md5Hex (msg : List Nat) : List Nat := hexEncode (md5 msg)

/-! ## Authentication guard of `src/api.rs` (`authenticate`) -/

structure AuthQuery where
  u : List Nat
  p : Option (List Nat)
  t : Option (List Nat)
  s : Option (List Nat)

/-- Byte-slice comparison; the source uses `constant_time_eq` whose result is
the same equality (constant-timeness is a timing property with no functional
content). -/
def constantTimeEq (a b : List Nat) : Bool := a == b

/-- The bytes of the fixed marker "enc:". -/
def encMarker : List Nat := [101, 110, 99, 58]

def startsWithEnc (p : List Nat) : Bool := encMarker.isPrefixOf p

structure Authentication where
  username : List Nat
  password : List Nat
  encodedPassword : List Nat

/-- Constructor `Authentication::new`: precomputes the hex-encoded password with the
"enc:" marker. -/
def Authentication.new (username password : List Nat) : Authentication :=
  ⟨username, password, encMarker ++ hexEncode password⟩

/-- The guard's verdict on one request: `none` means authenticated, `some e`
is the serialized error. Mirrors the match arms of `authenticate` in order. -/
def authenticate (aq : AuthQuery) (auth : Authentication) : Option ApiError :=
  let validUser := constantTimeEq aq.u auth.username
  match aq.p, aq.t, aq.s with
  | some p, _, _ =>
    if startsWithEnc p && constantTimeEq p auth.encodedPassword && validUser then none
    else if startsWithEnc p then some ApiError.authenticationFailed
    else if constantTimeEq p auth.password && validUser then none
    else some ApiError.authenticationFailed
  | none, some t, some s =>
    if constantTimeEq t (md5Hex (auth.password ++ s)) && validUser then none
    else some ApiError.authenticationFailed
  | none, _, _ => some (ApiError.missingParameter "either username or password is missing")

/-! ## Reply-format negotiation of `src/api.rs`
(`serialization_format` and `serialize_reply`)

The query string is modelled as its decoded key/value pairs; `serde_urlencoded`
deserialization into `SerializationQuery` ignores unknown keys and fails on a
duplicate known key, in which case the caller falls back to the default (both
fields absent), i.e. XML. -/

structure SerializationQuery where
  f : Option String
  callback : Option String
deriving DecidableEq

inductive ContentType
  | applicationJson
  | textJavascript
  | textXml
deriving DecidableEq

def parseSerializationQueryGo :
    List (String × String) → Option String → Option String → Option SerializationQuery
  | [], f, cb => some ⟨f, cb⟩
  | (k, v) :: rest, f, cb =>
    if k = "f" then
      match f with
      | none => parseSerializationQueryGo rest (some v) cb
      | some _ => none
    else if k = "callback" then
      match cb with
      | none => parseSerializationQueryGo rest f (some v)
      | some _ => none
    else parseSerializationQueryGo rest f cb

def parseSerializationQuery (q : List (String × String)) : Option SerializationQuery :=
  parseSerializationQueryGo q none none

/-- Function `serialization_format`: parse the query, defaulting to an empty
`SerializationQuery` whenever parsing fails. -/
def serializationFormat (q : List (String × String)) : SerializationQuery :=
  (parseSerializationQuery q).getD ⟨none, none⟩

/-- Function `serialize_reply`, restricted to the choice of branch: the reply's JSON
and XML renderings are taken as given, and the result is the content-type
together with the body. The branch order mirrors the source match:
`(Some("json"), _)`, then `(Some("jsonp"), Some(callback))`, then XML. -/
def serializeReply (jsonBody xmlBody : String) (fmt : SerializationQuery) :
    ContentType × String :=
  if fmt.f = some "json" then (ContentType.applicationJson, jsonBody)
  else
    match fmt.callback with
    | some callback =>
      if fmt.f = some "jsonp" then
        (ContentType.textJavascript, callback ++ "(" ++ jsonBody ++ ")")
      else (ContentType.textXml, xmlBody)
    | none => (ContentType.textXml, xmlBody)

/-! ## Stream endpoint of `src/api/retrieval.rs` -/

def FFMPEG_BITRATES : List Nat := [96, 112, 128, 160, 192]

/-- Rust `slice::partition_point` on a partitioned slice: the number of leading
elements satisfying the predicate. -/
def partitionPoint (p : Nat → Bool) (l : List Nat) : Nat := (l.takeWhile p).length

/-- The bitrate selection of `stream` for the ogg/default branch: greatest
ladder entry at most the desired maximum, where the desired maximum is the
ladder's top entry if the request gave none or zero; an out-of-range index
falls back to the ladder's top entry. The ffmpeg argument is this value times
1024. -/
def selectBitrate (maxBitrate : Option Nat) : Nat :=
  let maxAvailable := FFMPEG_BITRATES.getD (FFMPEG_BITRATES.length - 1) 0
  let maxDesired :=
    match maxBitrate with
    | none => maxAvailable
    | some 0 => maxAvailable
    | some b => b
  FFMPEG_BITRATES.getD
    (partitionPoint (fun x => decide (x ≤ maxDesired)) FFMPEG_BITRATES - 1) maxAvailable

inductive StreamEffect
  | getSong (path : List Nat)
  | spawnFfmpeg (bitrate : Nat)
deriving DecidableEq

structure StreamQuery where
  song : SongID
  maxBitrate : Option Nat
  format : Option String

/-- The `stream` handler as the sequence of effects it performs together
with its outcome, given the library's answer for the song's path. The source
opens the library stream first, then dispatches on the requested format:
`Some("raw")`, `Some("ogg") | None` (spawn ffmpeg at the selected bitrate),
any other `Some(_)` is rejected with a generic error. -/
def stream (q : StreamQuery) (lib : List Nat → Except ApiError Unit) :
    List StreamEffect × Except ApiError Unit :=
  match lib q.song.path with
  | .error e => ([.getSong q.song.path], .error e)
  | .ok _ =>
    match q.format with
    | some f =>
      if f = "raw" then ([.getSong q.song.path], .ok ())
      else if f = "ogg" then
        ([.getSong q.song.path, .spawnFfmpeg (selectBitrate q.maxBitrate * 1024)], .ok ())
      else ([.getSong q.song.path], .error (ApiError.genericError (some "unsupported format")))
    | none =>
      ([.getSong q.song.path, .spawnFfmpeg (selectBitrate q.maxBitrate * 1024)], .ok ())

/-! ## Cover-art assembly of `src/api/retrieval.rs` (`get_cover_art`)

The handler repeatedly asks the backend for an artwork chunk at the offset
equal to the accumulated length and appends the returned bytes until the
accumulated length is no longer below the reported total size. The backend
round-trips are modelled as a function from offset to response; the loop
carries fuel because a backend that keeps sending empty chunks would keep
the real loop running forever as well (a `none` result stands for both a
backend failure and non-termination within the bound). -/

structure ArtworkChunk where
  data : List Nat
  size : Nat
  mime : Option (List Nat)

def getCoverArtLoop (backend : Nat → Option ArtworkChunk) :
    Nat → List Nat → Option (List Nat × Option (List Nat))
  | 0, _ => none
  | fuel + 1, cover =>
    match backend cover.length with
    | none => none
    | some resp =>
      let cover2 := cover ++ resp.data
      if cover2.length < resp.size then getCoverArtLoop backend fuel cover2
      else some (cover2, resp.mime)

/-- A backend serving a fixed artwork byte string, answering a request at a
given offset with the next `csize offset` bytes, the total size, and a fixed
MIME type, as MPD's `albumart` command does. -/
def chunkBackend (art : List Nat) (mime : Option (List Nat)) (csize : Nat → Nat) :
    Nat → Option ArtworkChunk :=
  fun off => some ⟨(art.drop off).take (csize off), art.length, mime⟩

/-! ## Lemmas and claim theorems -/

lemma b64DecodeChar_alphabet {n : Nat} (h : n < 64) :
    b64DecodeChar (b64AlphabetChar n) = some n := by
  interval_cases n <;> decide

lemma b64AlphabetChar_ne_pad {n : Nat} (h : n < 64) : b64AlphabetChar n ≠ 61 := by
  interval_cases n <;> decide

lemma groupDiv (x y c : Nat) (hc : 0 < c) (hy : y < c) : (x * c + y) / c = x := by
  rw [Nat.mul_comm, Nat.mul_add_div hc, Nat.div_eq_of_lt hy, Nat.add_zero]

lemma groupMod (x y c : Nat) (hy : y < c) : (x * c + y) % c = y := by
  rw [Nat.mul_comm, Nat.mul_add_mod, Nat.mod_eq_of_lt hy]

lemma b64_roundtrip : ∀ l : List Nat, ValidBytes l → b64Decode (b64Encode l) = some l := by
  intro l
  induction l using b64Encode.induct with
  | case1 => intro _; rfl
  | case2 b0 =>
    intro h
    have hb0 : b0 < 256 := h b0 (by simp)
    have h0 : b0 / 4 < 64 := by omega
    have h1 : b0 % 4 * 16 < 64 := by omega
    simp only [b64Encode, b64Decode, if_pos rfl, and_self, if_pos,
      b64DecodeChar_alphabet h0, b64DecodeChar_alphabet h1]
    have hz : b0 % 4 * 16 % 16 = 0 := by omega
    rw [if_pos hz]
    have : b0 % 4 * 16 / 16 = b0 % 4 := Nat.mul_div_cancel _ (by norm_num)
    rw [this]
    congr 2
    omega
  | case3 b0 b1 =>
    intro h
    have hb0 : b0 < 256 := h b0 (by simp)
    have hb1 : b1 < 256 := h b1 (by simp)
    have h0 : b0 / 4 < 64 := by omega
    have h1 : b0 % 4 * 16 + b1 / 16 < 64 := by omega
    have h2 : b1 % 16 * 4 < 64 := by omega
    simp only [b64Encode, b64Decode, if_neg (b64AlphabetChar_ne_pad h2), if_pos rfl, and_self,
      if_pos, b64DecodeChar_alphabet h0, b64DecodeChar_alphabet h1, b64DecodeChar_alphabet h2]
    have hz : b1 % 16 * 4 % 4 = 0 := by omega
    rw [if_pos hz]
    rw [groupDiv _ _ 16 (by norm_num) (by omega), groupMod _ _ 16 (by omega)]
    have : b1 % 16 * 4 / 4 = b1 % 16 := Nat.mul_div_cancel _ (by norm_num)
    rw [this]
    congr 2
    · omega
    · congr 1
      omega
  | case4 b0 b1 b2 rest ih =>
    intro h
    have hb0 : b0 < 256 := h b0 (by simp)
    have hb1 : b1 < 256 := h b1 (by simp)
    have hb2 : b2 < 256 := h b2 (by simp)
    have hrest : ValidBytes rest := fun b hb => h b (by simp [hb])
    have h0 : b0 / 4 < 64 := by omega
    have h1 : b0 % 4 * 16 + b1 / 16 < 64 := by omega
    have h2 : b1 % 16 * 4 + b2 / 64 < 64 := by omega
    have h3 : b2 % 64 < 64 := by omega
    simp only [b64Encode, b64Decode, if_neg (b64AlphabetChar_ne_pad h2),
      if_neg (b64AlphabetChar_ne_pad h3), b64DecodeChar_alphabet h0, b64DecodeChar_alphabet h1,
      b64DecodeChar_alphabet h2, b64DecodeChar_alphabet h3, ih hrest]
    rw [groupDiv _ _ 16 (by norm_num) (by omega), groupMod _ _ 16 (by omega),
      groupDiv _ _ 4 (by norm_num) (by omega), groupMod _ _ 4 (by omega)]
    simp only [Option.some.injEq, List.cons.injEq]
    refine ⟨by omega, by omega, by omega, trivial⟩

lemma b64AlphabetChar_isStd {n : Nat} (h : n < 64) : isStdB64Char (b64AlphabetChar n) = true := by
  interval_cases n <;> decide

lemma b64Encode_chars : ∀ l : List Nat, ValidBytes l →
    ∀ c ∈ b64Encode l, isStdB64Char c = true ∨ c = 61 := by
  intro l
  induction l using b64Encode.induct with
  | case1 => intro _ c hc; simp [b64Encode] at hc
  | case2 b0 =>
    intro h c hc
    have hb0 : b0 < 256 := h b0 (by simp)
    simp only [b64Encode, List.mem_cons, List.not_mem_nil, or_false] at hc
    rcases hc with rfl | rfl | rfl | rfl
    · exact Or.inl (b64AlphabetChar_isStd (by omega))
    · exact Or.inl (b64AlphabetChar_isStd (by omega))
    · exact Or.inr rfl
    · exact Or.inr rfl
  | case3 b0 b1 =>
    intro h c hc
    have hb0 : b0 < 256 := h b0 (by simp)
    have hb1 : b1 < 256 := h b1 (by simp)
    simp only [b64Encode, List.mem_cons, List.not_mem_nil, or_false] at hc
    rcases hc with rfl | rfl | rfl | rfl
    · exact Or.inl (b64AlphabetChar_isStd (by omega))
    · exact Or.inl (b64AlphabetChar_isStd (by omega))
    · exact Or.inl (b64AlphabetChar_isStd (by omega))
    · exact Or.inr rfl
  | case4 b0 b1 b2 rest ih =>
    intro h c hc
    have hb0 : b0 < 256 := h b0 (by simp)
    have hb1 : b1 < 256 := h b1 (by simp)
    have hb2 : b2 < 256 := h b2 (by simp)
    have hrest : ValidBytes rest := fun b hb => h b (by simp [hb])
    simp only [b64Encode, List.mem_cons] at hc
    rcases hc with rfl | rfl | rfl | rfl | hc
    · exact Or.inl (b64AlphabetChar_isStd (by omega))
    · exact Or.inl (b64AlphabetChar_isStd (by omega))
    · exact Or.inl (b64AlphabetChar_isStd (by omega))
    · exact Or.inl (b64AlphabetChar_isStd (by omega))
    · exact ih hrest c hc

lemma parseHexDigit_hexDigit {n : Nat} (h : n < 16) : parseHexDigit (hexDigit n) = some n := by
  interval_cases n <;> decide

lemma parseEscape_simple {e b : Nat} (h : jsonEscByte e = some b) (r : List Nat) :
    parseEscape (e :: r) = some ([b], 1) := by
  simp only [parseEscape, h]

lemma parseEscape_u00 {b : Nat} (h : b < 32) (r : List Nat) :
    parseEscape (117 :: 48 :: 48 :: hexDigit (b / 16) :: hexDigit (b % 16) :: r) =
      some ([b], 5) := by
  interval_cases b <;> rfl

lemma parseStringBody_quote (r : List Nat) : parseStringBody (34 :: r) = some ([], r) := by
  simp [parseStringBody]

lemma parseStringBody_raw {c : Nat} (r : List Nat) (h34 : c ≠ 34) (h92 : c ≠ 92)
    (hctl : ¬ c < 32) :
    parseStringBody (c :: r) = (parseStringBody r).map (fun p => (c :: p.1, p.2)) := by
  simp only [parseStringBody, if_neg h34, if_neg h92, if_neg hctl]

lemma parseStringBody_esc {e b : Nat} (h : jsonEscByte e = some b) (r : List Nat) :
    parseStringBody (92 :: e :: r) = (parseStringBody r).map (fun p => (b :: p.1, p.2)) := by
  simp only [parseStringBody, if_neg (by decide : (92 : Nat) ≠ 34), if_pos rfl,
    parseEscape_simple h, List.drop_succ_cons, List.drop_zero, List.cons_append,
    List.nil_append, if_true]

lemma parseStringBody_u00 {b : Nat} (h : b < 32) (r : List Nat) :
    parseStringBody (92 :: 117 :: 48 :: 48 :: hexDigit (b / 16) :: hexDigit (b % 16) :: r) =
      (parseStringBody r).map (fun p => (b :: p.1, p.2)) := by
  simp only [parseStringBody, if_neg (by decide : (92 : Nat) ≠ 34), if_pos rfl,
    parseEscape_u00 h, List.drop_succ_cons, List.drop_zero, List.cons_append,
    List.nil_append, if_true]

/-- The parse of one escaped byte, with an arbitrary continuation. -/
lemma parseStringBody_escByte {b : Nat} (hb : b < 256) (r' : List Nat) :
    parseStringBody (jsonEscapeByte b ++ r') =
      (parseStringBody r').map (fun p => (b :: p.1, p.2)) := by
  by_cases hctl : b < 32
  · interval_cases b <;>
      first
        | exact parseStringBody_esc (by decide) r'
        | exact parseStringBody_u00 (by decide) r'
  · by_cases h34 : b = 34
    · subst h34; exact parseStringBody_esc (by decide) r'
    · by_cases h92 : b = 92
      · subst h92; exact parseStringBody_esc (by decide) r'
      · rw [show jsonEscapeByte b = [b] by
          unfold jsonEscapeByte; rw [if_neg h34, if_neg h92, if_neg hctl]]
        rw [List.cons_append, List.nil_append]
        exact parseStringBody_raw r' h34 h92 hctl

/-- Round-trip of serde_json's string escaping against its string parser,
with an arbitrary continuation after the closing quote. -/
lemma parseStringBody_escape (s : List Nat) (hs : ValidBytes s) (r : List Nat) :
    parseStringBody (jsonEscapeBytes s ++ 34 :: r) = some (s, r) := by
  induction s with
  | nil => simpa [jsonEscapeBytes] using parseStringBody_quote r
  | cons b bs ih =>
    have hb : b < 256 := hs b (by simp)
    have hbs : ValidBytes bs := fun x hx => hs x (by simp [hx])
    rw [jsonEscapeBytes, List.append_assoc, parseStringBody_escByte hb, ih hbs]
    rfl

lemma jsonEscapeByte_valid {b : Nat} (h : b < 256) : ValidBytes (jsonEscapeByte b) := by
  have hd1 : hexDigit (b / 16) < 256 := by unfold hexDigit; split_ifs <;> omega
  have hd2 : hexDigit (b % 16) < 256 := by unfold hexDigit; split_ifs <;> omega
  intro c hc
  unfold jsonEscapeByte at hc
  split_ifs at hc <;> fin_cases hc <;>
    first | omega | exact hd1 | exact hd2 | exact h

lemma jsonEscapeBytes_valid {s : List Nat} (h : ValidBytes s) :
    ValidBytes (jsonEscapeBytes s) := by
  induction s with
  | nil => intro c hc; simp [jsonEscapeBytes] at hc
  | cons b bs ih =>
    intro c hc
    rw [jsonEscapeBytes] at hc
    rcases List.mem_append.mp hc with hc | hc
    · exact jsonEscapeByte_valid (h b (by simp)) c hc
    · exact ih (fun x hx => h x (by simp [hx])) c hc

lemma jsonStringLit_valid {s : List Nat} (h : ValidBytes s) : ValidBytes (jsonStringLit s) := by
  intro c hc
  rw [jsonStringLit] at hc
  rcases List.mem_cons.mp hc with rfl | hc
  · omega
  · rcases List.mem_append.mp hc with hc | hc
    · exact jsonEscapeBytes_valid h c hc
    · simp only [List.mem_singleton] at hc; omega

lemma skipWs_cons {c : Nat} (h : ¬ (c = 32 ∨ c = 9 ∨ c = 10 ∨ c = 13)) (r : List Nat) :
    skipWs (c :: r) = c :: r := by
  simp only [skipWs]
  rw [if_neg h]

lemma parseStringValue_lit {s : List Nat} (hs : ValidBytes s) (r : List Nat) :
    parseStringValue (jsonStringLit s ++ r) = some (s, r) := by
  rw [show jsonStringLit s ++ r = 34 :: (jsonEscapeBytes s ++ 34 :: r) by
    simp [jsonStringLit]]
  show parseStringBody (jsonEscapeBytes s ++ 34 :: r) = some (s, r)
  exact parseStringBody_escape s hs r

lemma parseMember_lit {k v : List Nat} (hk : ValidBytes k) (hv : ValidBytes v) (r : List Nat) :
    parseMember (jsonStringLit k ++ 58 :: (jsonStringLit v ++ r)) = some ((k, v), r) := by
  unfold parseMember
  rw [parseStringValue_lit hk]
  dsimp only []
  rw [skipWs_cons (by decide)]
  dsimp only []
  rw [parseStringValue_lit hv]

lemma parseMembers_last {k v : List Nat} (hk : ValidBytes k) (hv : ValidBytes v)
    (fuel : Nat) (r : List Nat) :
    parseMembers (fuel + 1) (jsonStringLit k ++ 58 :: (jsonStringLit v ++ 125 :: r)) =
      some ([(k, v)], r) := by
  conv_lhs => unfold parseMembers
  rw [parseMember_lit hk hv]
  dsimp only []
  rw [skipWs_cons (by decide)]

lemma parseMembers_more {k v : List Nat} (hk : ValidBytes k) (hv : ValidBytes v)
    (fuel : Nat) (r : List Nat) :
    parseMembers (fuel + 1) (jsonStringLit k ++ 58 :: (jsonStringLit v ++ 44 :: r)) =
      (parseMembers fuel r).map (fun p => ((k, v) :: p.1, p.2)) := by
  conv_lhs => unfold parseMembers
  rw [parseMember_lit hk hv]
  dsimp only []
  rw [skipWs_cons (by decide)]

lemma parseObject_obj1 {k v : List Nat} (hk : ValidBytes k) (hv : ValidBytes v) :
    parseObject (jsonObj1 k v) = some ([(k, v)], []) := by
  unfold parseObject jsonObj1
  rw [skipWs_cons (by decide)]
  dsimp only []
  rw [show (jsonStringLit k ++ 58 :: jsonStringLit v ++ [125] : List Nat) =
      34 :: (jsonEscapeBytes k ++ 34 :: (58 :: (jsonStringLit v ++ 125 :: []))) by
    simp [jsonStringLit]]
  rw [skipWs_cons (by decide)]
  dsimp only []
  rw [show (34 : Nat) :: (jsonEscapeBytes k ++ 34 :: (58 :: (jsonStringLit v ++ 125 :: []))) =
      jsonStringLit k ++ 58 :: (jsonStringLit v ++ 125 :: []) by simp [jsonStringLit]]
  rw [parseMembers_last hk hv]

lemma parseObject_obj2 {k1 v1 k2 v2 : List Nat} (hk1 : ValidBytes k1) (hv1 : ValidBytes v1)
    (hk2 : ValidBytes k2) (hv2 : ValidBytes v2) :
    parseObject (jsonObj2 k1 v1 k2 v2) = some ([(k1, v1), (k2, v2)], []) := by
  unfold parseObject jsonObj2
  rw [skipWs_cons (by decide)]
  dsimp only []
  rw [show (jsonStringLit k1 ++ 58 :: jsonStringLit v1 ++
        44 :: jsonStringLit k2 ++ 58 :: jsonStringLit v2 ++ [125] : List Nat) =
      34 :: (jsonEscapeBytes k1 ++ 34 :: (58 :: (jsonStringLit v1 ++
        44 :: (jsonStringLit k2 ++ 58 :: (jsonStringLit v2 ++ 125 :: []))))) by
    simp [jsonStringLit]]
  rw [skipWs_cons (by decide)]
  dsimp only []
  simp only [List.length_cons]
  rw [show (34 : Nat) :: (jsonEscapeBytes k1 ++ 34 :: (58 :: (jsonStringLit v1 ++
        44 :: (jsonStringLit k2 ++ 58 :: (jsonStringLit v2 ++ 125 :: []))))) =
      jsonStringLit k1 ++ 58 :: (jsonStringLit v1 ++
        44 :: (jsonStringLit k2 ++ 58 :: (jsonStringLit v2 ++ 125 :: []))) by
    simp [jsonStringLit]]
  rw [parseMembers_more hk1 hv1, parseMembers_last hk2 hv2]
  rfl

lemma validBytes_append {a b : List Nat} (ha : ValidBytes a) (hb : ValidBytes b) :
    ValidBytes (a ++ b) :=
  fun c hc => (List.mem_append.mp hc).elim (ha c) (hb c)

lemma validBytes_cons {x : Nat} {a : List Nat} (hx : x < 256) (ha : ValidBytes a) :
    ValidBytes (x :: a) :=
  fun c hc => (List.mem_cons.mp hc).elim (fun h => h ▸ hx) (ha c)

lemma jsonObj1_valid {k v : List Nat} (hk : ValidBytes k) (hv : ValidBytes v) :
    ValidBytes (jsonObj1 k v) :=
  validBytes_cons (by omega)
    (validBytes_append
      (validBytes_append (jsonStringLit_valid hk)
        (validBytes_cons (by omega) (jsonStringLit_valid hv)))
      (by decide))

lemma jsonObj2_valid {k1 v1 k2 v2 : List Nat} (hk1 : ValidBytes k1) (hv1 : ValidBytes v1)
    (hk2 : ValidBytes k2) (hv2 : ValidBytes v2) : ValidBytes (jsonObj2 k1 v1 k2 v2) :=
  validBytes_cons (by omega)
    (validBytes_append
      (validBytes_append
        (validBytes_append
          (validBytes_append (jsonStringLit_valid hk1)
            (validBytes_cons (by omega) (jsonStringLit_valid hv1)))
          (validBytes_cons (by omega) (jsonStringLit_valid hk2)))
        (validBytes_cons (by omega) (jsonStringLit_valid hv2)))
      (by decide))

lemma b64AlphabetChar_ne45 (n : Nat) : b64AlphabetChar n ≠ 45 := by
  unfold b64AlphabetChar
  split_ifs <;> omega

lemma trimStartPl_of_ne45 {x0 x1 x2 : Nat} (h : x2 ≠ 45) (xs : List Nat) :
    trimStartPl (x0 :: x1 :: x2 :: xs) = x0 :: x1 :: x2 :: xs := by
  unfold trimStartPl
  rw [if_neg (fun hh => h hh.2.2)]

/-- Encoded tokens never begin with the `pl-` marker: base64 output has no
`-` character, so the compat trim is the identity on encoder output. -/
lemma trimStartPl_b64 (l : List Nat) : trimStartPl (b64Encode l) = b64Encode l := by
  rcases l with _ | ⟨b0, _ | ⟨b1, _ | ⟨b2, rest⟩⟩⟩
  · rfl
  · exact trimStartPl_of_ne45 (by decide) _
  · exact trimStartPl_of_ne45 (b64AlphabetChar_ne45 _) _
  · exact trimStartPl_of_ne45 (b64AlphabetChar_ne45 _) _

lemma artistIDRoundtrip (a : ArtistID) (h : ValidBytes a.name) :
    ArtistID.fromString (ArtistID.intoString a) = some a := by
  unfold ArtistID.fromString ArtistID.intoString
  rw [b64_roundtrip _ (jsonObj1_valid (by decide) h)]
  show ArtistID.fromJsonBytes (jsonObj1 nameKey a.name) = some a
  unfold ArtistID.fromJsonBytes
  rw [parseObject_obj1 (by decide) h]
  rfl

lemma albumIDRoundtrip (a : AlbumID) (hn : ValidBytes a.name) (ha : ValidBytes a.artist) :
    AlbumID.fromString (AlbumID.intoString a) = some a := by
  unfold AlbumID.fromString AlbumID.intoString
  rw [b64_roundtrip _ (jsonObj2_valid (by decide) hn (by decide) ha)]
  show AlbumID.fromJsonBytes (jsonObj2 nameKey a.name artistKey a.artist) = some a
  unfold AlbumID.fromJsonBytes
  rw [parseObject_obj2 (by decide) hn (by decide) ha]
  rfl

lemma songIDRoundtrip (a : SongID) (h : ValidBytes a.path) :
    SongID.fromString (SongID.intoString a) = some a := by
  unfold SongID.fromString SongID.intoString
  rw [b64_roundtrip _ (jsonObj1_valid (by decide) h)]
  show SongID.fromJsonBytes (jsonObj1 pathKey a.path) = some a
  unfold SongID.fromJsonBytes
  rw [parseObject_obj1 (by decide) h]
  rfl

lemma playlistIDRoundtrip (a : PlaylistID) (h : ValidBytes a.name) :
    PlaylistID.fromString (PlaylistID.intoString a) = some a := by
  unfold PlaylistID.fromString PlaylistID.intoString
  rw [b64_roundtrip _ (jsonObj1_valid (by decide) h)]
  show PlaylistID.fromJsonBytes (jsonObj1 nameKey a.name) = some a
  unfold PlaylistID.fromJsonBytes
  rw [parseObject_obj1 (by decide) h]
  rfl

lemma coverArtIDRoundtrip (a : CoverArtID) (h : a.Valid) :
    CoverArtID.fromString (CoverArtID.intoString a) = some a := by
  rcases a with p | n
  · unfold CoverArtID.fromString CoverArtID.intoString
    rw [trimStartPl_b64, b64_roundtrip _ (jsonObj1_valid (by decide) h)]
    show CoverArtID.fromJsonBytes (jsonObj1 pathKey p) = some (CoverArtID.Song p)
    unfold CoverArtID.fromJsonBytes
    rw [parseObject_obj1 (by decide) h]
    rfl
  · unfold CoverArtID.fromString CoverArtID.intoString
    rw [trimStartPl_b64, b64_roundtrip _ (jsonObj1_valid (by decide) h)]
    show CoverArtID.fromJsonBytes (jsonObj1 nameKey n) = some (CoverArtID.Playlist n)
    unfold CoverArtID.fromJsonBytes
    rw [parseObject_obj1 (by decide) h]
    rfl

lemma getCoverArtLoop_inv (art : List Nat) (mime : Option (List Nat)) (csize : Nat → Nat)
    (hc : ∀ off, off < art.length → 0 < csize off) :
    ∀ fuel j, j ≤ art.length → art.length - j < fuel →
      getCoverArtLoop (chunkBackend art mime csize) fuel (art.take j) = some (art, mime) := by
  intro fuel
  induction fuel with
  | zero => intro j hj hf; omega
  | succ fuel ih =>
    intro j hj hf
    have hlen : (art.take j).length = j := by
      simp [List.length_take]
      omega
    simp only [getCoverArtLoop, chunkBackend]
    rw [hlen, ← List.take_add]
    by_cases hend : (art.take (j + csize j)).length < art.length
    · rw [if_pos hend]
      have hcs : 0 < csize j := by
        apply hc
        simp [List.length_take] at hend
        omega
      have hlt : j + csize j ≤ art.length := by
        simp [List.length_take] at hend
        omega
      apply ih (j + csize j) hlt
      simp [List.length_take] at hend
      omega
    · rw [if_neg hend]
      have : art.length ≤ j + csize j := by
        simp [List.length_take] at hend
        omega
      rw [List.take_of_length_le this]

lemma getCoverArtLoop_chunked (art : List Nat) (mime : Option (List Nat)) (csize : Nat → Nat)
    (fuel : Nat) (hc : ∀ off, off < art.length → 0 < csize off)
    (hfuel : art.length < fuel) :
    getCoverArtLoop (chunkBackend art mime csize) fuel [] = some (art, mime) := by
  have := getCoverArtLoop_inv art mime csize hc fuel 0 (by omega) (by omega)
  simpa using this

lemma selectBitrate_pos {b : Nat} (hb : 0 < b) :
    selectBitrate (some b) =
      FFMPEG_BITRATES.getD
        (partitionPoint (fun x => decide (x ≤ b)) FFMPEG_BITRATES - 1) 192 := by
  obtain ⟨n, rfl⟩ : ∃ n, b = n + 1 := ⟨b - 1, by omega⟩
  rfl

lemma partitionPoint_ladder (b : Nat) :
    partitionPoint (fun x => decide (x ≤ b)) FFMPEG_BITRATES =
      if 192 ≤ b then 5 else if 160 ≤ b then 4 else if 128 ≤ b then 3
      else if 112 ≤ b then 2 else if 96 ≤ b then 1 else 0 := by
  unfold partitionPoint FFMPEG_BITRATES
  split_ifs with h1 h2 h3 h4 h5 <;>
  · first
      | (have e1 : decide (96 ≤ b) = true := decide_eq_true (by omega)
         have e2 : decide (112 ≤ b) = true := decide_eq_true (by omega)
         have e3 : decide (128 ≤ b) = true := decide_eq_true (by omega)
         have e4 : decide (160 ≤ b) = true := decide_eq_true (by omega)
         have e5 : decide (192 ≤ b) = true := decide_eq_true (by omega)
         simp [List.takeWhile_cons, e1, e2, e3, e4, e5])
      | (have e1 : decide (96 ≤ b) = true := decide_eq_true (by omega)
         have e2 : decide (112 ≤ b) = true := decide_eq_true (by omega)
         have e3 : decide (128 ≤ b) = true := decide_eq_true (by omega)
         have e4 : decide (160 ≤ b) = true := decide_eq_true (by omega)
         have e5 : decide (192 ≤ b) = false := decide_eq_false (by omega)
         simp [List.takeWhile_cons, e1, e2, e3, e4, e5])
      | (have e1 : decide (96 ≤ b) = true := decide_eq_true (by omega)
         have e2 : decide (112 ≤ b) = true := decide_eq_true (by omega)
         have e3 : decide (128 ≤ b) = true := decide_eq_true (by omega)
         have e4 : decide (160 ≤ b) = false := decide_eq_false (by omega)
         simp [List.takeWhile_cons, e1, e2, e3, e4])
      | (have e1 : decide (96 ≤ b) = true := decide_eq_true (by omega)
         have e2 : decide (112 ≤ b) = true := decide_eq_true (by omega)
         have e3 : decide (128 ≤ b) = false := decide_eq_false (by omega)
         simp [List.takeWhile_cons, e1, e2, e3])
      | (have e1 : decide (96 ≤ b) = true := decide_eq_true (by omega)
         have e2 : decide (112 ≤ b) = false := decide_eq_false (by omega)
         simp [List.takeWhile_cons, e1, e2])
      | (have e1 : decide (96 ≤ b) = false := decide_eq_false (by omega)
         simp [List.takeWhile_cons, e1])

lemma selectBitrate_interval {b : Nat} (hb : 96 ≤ b) :
    selectBitrate (some b) =
      if 192 ≤ b then 192 else if 160 ≤ b then 160 else if 128 ≤ b then 128
      else if 112 ≤ b then 112 else 96 := by
  rw [selectBitrate_pos (by omega), partitionPoint_ladder]
  split_ifs <;> rfl

lemma selectBitrate_below96 (b : Nat) (h1 : 0 < b) (h2 : b < 96) : selectBitrate (some b) = 96 := by
  rw [selectBitrate_pos h1, partitionPoint_ladder]
  have e1 : ¬ 192 ≤ b := by omega
  have e2 : ¬ 160 ≤ b := by omega
  have e3 : ¬ 128 ≤ b := by omega
  have e4 : ¬ 112 ≤ b := by omega
  have e5 : ¬ 96 ≤ b := by omega
  rw [if_neg e1, if_neg e2, if_neg e3, if_neg e4, if_neg e5]
  rfl

lemma constantTimeEq_eq (a b : List Nat) : constantTimeEq a b = decide (a = b) := by
  by_cases h : a = b <;> simp [constantTimeEq, h]

lemma authenticate_enc (username password u p : List Nat) (t s : Option (List Nat))
    (henc : startsWithEnc p = true) :
    authenticate ⟨u, some p, t, s⟩ (Authentication.new username password) =
      if p = (Authentication.new username password).encodedPassword ∧ u = username then none
      else some ApiError.authenticationFailed := by
  simp only [authenticate, constantTimeEq_eq]
  rw [henc]
  by_cases hpe : p = (Authentication.new username password).encodedPassword <;>
    by_cases hu : u = username <;>
    simp [hpe, hu, Authentication.new]

lemma authenticate_plain (username password u p : List Nat) (t s : Option (List Nat))
    (henc : startsWithEnc p = false) :
    authenticate ⟨u, some p, t, s⟩ (Authentication.new username password) =
      if p = password ∧ u = username then none
      else some ApiError.authenticationFailed := by
  simp only [authenticate, constantTimeEq_eq]
  rw [henc]
  by_cases hpe : p = password <;> by_cases hu : u = username <;>
    simp [hpe, hu, Authentication.new]

lemma authenticate_token (username password u t s : List Nat) :
    authenticate ⟨u, none, some t, some s⟩ (Authentication.new username password) =
      if t = md5Hex (password ++ s) ∧ u = username then none
      else some ApiError.authenticationFailed := by
  simp only [authenticate, constantTimeEq_eq]
  by_cases ht : t = md5Hex (password ++ s) <;> by_cases hu : u = username <;>
    simp [ht, hu, Authentication.new]

lemma serializeReply_json {fmt : SerializationQuery} (h : fmt.f = some "json")
    (j x : String) : serializeReply j x fmt = (ContentType.applicationJson, j) := by
  simp [serializeReply, h]

lemma serializeReply_jsonp {fmt : SerializationQuery} {cb : String}
    (h1 : fmt.f = some "jsonp") (h2 : fmt.callback = some cb) (j x : String) :
    serializeReply j x fmt = (ContentType.textJavascript, cb ++ "(" ++ j ++ ")") := by
  simp [serializeReply, h1, h2]

lemma serializeReply_xml {fmt : SerializationQuery} (h1 : fmt.f ≠ some "json")
    (h2 : ¬ (fmt.f = some "jsonp" ∧ fmt.callback ≠ none)) (j x : String) :
    serializeReply j x fmt = (ContentType.textXml, x) := by
  unfold serializeReply
  rw [if_neg h1]
  cases hcb : fmt.callback with
  | none => rfl
  | some cb =>
    dsimp only []
    have hjp : fmt.f ≠ some "jsonp" := fun hf => h2 ⟨hf, by simp [hcb]⟩
    rw [if_neg hjp]

/-! ## Claim theorems -/

/-- Claim C1: for every valid entity-ID instance of any variant, decoding
the encoded token yields the instance again, for all field values including
empty and non-ASCII byte strings, and encoding is canonical: equal inputs
yield equal tokens. -/
theorem c1_id_codec_roundtrip :
    (∀ a : ArtistID, ValidBytes a.name →
      ArtistID.fromString (ArtistID.intoString a) = some a) ∧
    (∀ a : AlbumID, ValidBytes a.name → ValidBytes a.artist →
      AlbumID.fromString (AlbumID.intoString a) = some a) ∧
    (∀ a : SongID, ValidBytes a.path →
      SongID.fromString (SongID.intoString a) = some a) ∧
    (∀ a : PlaylistID, ValidBytes a.name →
      PlaylistID.fromString (PlaylistID.intoString a) = some a) ∧
    (∀ a : CoverArtID, a.Valid →
      CoverArtID.fromString (CoverArtID.intoString a) = some a) ∧
    (∀ a b : ArtistID, a = b → ArtistID.intoString a = ArtistID.intoString b) ∧
    (∀ a b : AlbumID, a = b → AlbumID.intoString a = AlbumID.intoString b) ∧
    (∀ a b : SongID, a = b → SongID.intoString a = SongID.intoString b) ∧
    (∀ a b : PlaylistID, a = b → PlaylistID.intoString a = PlaylistID.intoString b) ∧
    (∀ a b : CoverArtID, a = b → CoverArtID.intoString a = CoverArtID.intoString b) :=
  ⟨artistIDRoundtrip, albumIDRoundtrip, songIDRoundtrip, playlistIDRoundtrip,
   coverArtIDRoundtrip,
   fun _ _ h => congrArg _ h, fun _ _ h => congrArg _ h, fun _ _ h => congrArg _ h,
   fun _ _ h => congrArg _ h, fun _ _ h => congrArg _ h⟩

/-- Witness for C1 at concrete inputs: a non-ASCII artist name (UTF-8 of the
euro sign), an album with an empty name, a song path, an empty playlist name
and a playlist cover-art ID with four-byte UTF-8. -/
theorem c1_id_codec_roundtrip_witness :
    ArtistID.fromString (ArtistID.intoString ⟨[226, 130, 172]⟩) = some ⟨[226, 130, 172]⟩ ∧
    AlbumID.fromString (AlbumID.intoString ⟨[], [226, 130, 172]⟩) =
      some ⟨[], [226, 130, 172]⟩ ∧
    SongID.fromString (SongID.intoString ⟨[97, 47, 98, 46, 109, 112, 51]⟩) =
      some ⟨[97, 47, 98, 46, 109, 112, 51]⟩ ∧
    PlaylistID.fromString (PlaylistID.intoString ⟨[]⟩) = some ⟨[]⟩ ∧
    CoverArtID.fromString (CoverArtID.intoString (.Playlist [240, 159, 142, 181])) =
      some (.Playlist [240, 159, 142, 181]) :=
  ⟨c1_id_codec_roundtrip.1 _ (by decide),
   c1_id_codec_roundtrip.2.1 _ (by decide) (by decide),
   c1_id_codec_roundtrip.2.2.1 _ (by decide),
   c1_id_codec_roundtrip.2.2.2.1 _ (by decide),
   c1_id_codec_roundtrip.2.2.2.2.1 _ (by decide)⟩

/-- Claim C2: reply serialization is chosen from the parsed query: f=json
gives JSON with application/json; f=jsonp with a callback gives the callback
wrapping with a javascript content-type; every other case — f unrecognized,
jsonp without callback, or an unparseable query — falls back to XML. -/
theorem c2_format_negotiation (q : List (String × String)) (jsonBody xmlBody : String) :
    ((serializationFormat q).f = some "json" →
      serializeReply jsonBody xmlBody (serializationFormat q) =
        (ContentType.applicationJson, jsonBody)) ∧
    (∀ cb, (serializationFormat q).f = some "jsonp" →
      (serializationFormat q).callback = some cb →
      serializeReply jsonBody xmlBody (serializationFormat q) =
        (ContentType.textJavascript, cb ++ "(" ++ jsonBody ++ ")")) ∧
    ((serializationFormat q).f ≠ some "json" →
      ¬ ((serializationFormat q).f = some "jsonp" ∧ (serializationFormat q).callback ≠ none) →
      serializeReply jsonBody xmlBody (serializationFormat q) =
        (ContentType.textXml, xmlBody)) ∧
    (parseSerializationQuery q = none →
      serializeReply jsonBody xmlBody (serializationFormat q) =
        (ContentType.textXml, xmlBody)) :=
  ⟨fun h => serializeReply_json h _ _,
   fun _ h1 h2 => serializeReply_jsonp h1 h2 _ _,
   fun h1 h2 => serializeReply_xml h1 h2 _ _,
   fun h => by
     have hd : serializationFormat q = ⟨none, none⟩ := by simp [serializationFormat, h]
     rw [hd]
     exact serializeReply_xml (by simp) (by simp) _ _⟩

/-- Witness for C2: json, jsonp with callback, unrecognized format, jsonp
without callback, and a duplicate-key (unparseable) query. -/
theorem c2_format_negotiation_witness :
    serializeReply "J" "X" (serializationFormat [("f", "json")]) =
      (ContentType.applicationJson, "J") ∧
    serializeReply "J" "X" (serializationFormat [("f", "jsonp"), ("callback", "cb")]) =
      (ContentType.textJavascript, "cb" ++ "(" ++ "J" ++ ")") ∧
    serializeReply "J" "X" (serializationFormat [("f", "bogus")]) =
      (ContentType.textXml, "X") ∧
    serializeReply "J" "X" (serializationFormat [("f", "jsonp")]) =
      (ContentType.textXml, "X") ∧
    serializeReply "J" "X" (serializationFormat [("f", "json"), ("f", "json")]) =
      (ContentType.textXml, "X") :=
  ⟨(c2_format_negotiation [("f", "json")] "J" "X").1 rfl,
   (c2_format_negotiation [("f", "jsonp"), ("callback", "cb")] "J" "X").2.1 "cb" rfl rfl,
   (c2_format_negotiation [("f", "bogus")] "J" "X").2.2.1 (by decide) (by decide),
   (c2_format_negotiation [("f", "jsonp")] "J" "X").2.2.1 (by decide) (by decide),
   (c2_format_negotiation [("f", "json"), ("f", "json")] "J" "X").2.2.2 (by decide)⟩

/-- Claim C3: for the stream endpoint with format ogg or unset, the selected
bitrate is the greatest ladder entry at most the requested maximum; absent,
zero or above-ladder requests select 192; in particular 150 selects 128 and
0, absent or 10000 select 192. -/
theorem c3_bitrate_ladder :
    selectBitrate none = 192 ∧
    selectBitrate (some 0) = 192 ∧
    (∀ b, 192 < b → selectBitrate (some b) = 192) ∧
    (∀ b, 96 ≤ b →
      selectBitrate (some b) ∈ FFMPEG_BITRATES ∧
      selectBitrate (some b) ≤ b ∧
      ∀ e ∈ FFMPEG_BITRATES, e ≤ b → e ≤ selectBitrate (some b)) ∧
    selectBitrate (some 150) = 128 ∧
    selectBitrate (some 10000) = 192 := by
  refine ⟨rfl, rfl, ?_, ?_, rfl, rfl⟩
  · intro b hb
    rw [selectBitrate_interval (by omega), if_pos (by omega)]
  · intro b hb
    rw [selectBitrate_interval hb]
    split_ifs with h1 h2 h3 h4 <;>
      refine ⟨by decide, by omega, ?_⟩ <;>
      · intro e he hle
        simp only [FFMPEG_BITRATES, List.mem_cons, List.not_mem_nil, or_false] at he
        rcases he with rfl | rfl | rfl | rfl | rfl <;> omega

/-- Witness for C3: the greatest-entry property at 150 and the above-ladder
fallback at 10000. -/
theorem c3_bitrate_ladder_witness :
    (selectBitrate (some 150) ∈ FFMPEG_BITRATES ∧ selectBitrate (some 150) ≤ 150 ∧
      ∀ e ∈ FFMPEG_BITRATES, e ≤ 150 → e ≤ selectBitrate (some 150)) ∧
    selectBitrate (some 10000) = 192 :=
  ⟨c3_bitrate_ladder.2.2.2.1 150 (by omega), c3_bitrate_ladder.2.2.1 10000 (by omega)⟩

/-- Claim C4: when p carries the enc: marker, the guard accepts exactly when
p equals the precomputed hex-encoded password and u equals the configured
username; any other outcome is AuthenticationFailed (code 40) and never
MissingParameter (code 10), regardless of t and s. -/
theorem c4_enc_auth_verdict (username password u p : List Nat) (t s : Option (List Nat))
    (henc : startsWithEnc p = true) :
    (authenticate ⟨u, some p, t, s⟩ (Authentication.new username password) = none ↔
      p = (Authentication.new username password).encodedPassword ∧ u = username) ∧
    (authenticate ⟨u, some p, t, s⟩ (Authentication.new username password) = none ∨
      authenticate ⟨u, some p, t, s⟩ (Authentication.new username password) =
        some ApiError.authenticationFailed) ∧
    ApiError.authenticationFailed.code = 40 ∧
    (∀ m, authenticate ⟨u, some p, t, s⟩ (Authentication.new username password) ≠
      some (ApiError.missingParameter m)) ∧
    (∀ m, (ApiError.missingParameter m).code = 10) := by
  rw [authenticate_enc username password u p t s henc]
  refine ⟨?_, ?_, rfl, ?_, fun _ => rfl⟩
  · split_ifs with h <;> simp [h]
  · split_ifs <;> simp
  · intro m
    split_ifs <;> simp [ApiError.authenticationFailed, ApiError.missingParameter]

/-- Witness for C4 with username bob, password secret, a wrong enc:-marked
password, and t and s also present. -/
theorem c4_enc_auth_verdict_witness :
    startsWithEnc [101, 110, 99, 58, 49, 50] = true ∧
    (authenticate ⟨[98, 111, 98], some [101, 110, 99, 58, 49, 50], some [116], some [115]⟩
        (Authentication.new [98, 111, 98] [115, 101, 99, 114, 101, 116]) = none ∨
      authenticate ⟨[98, 111, 98], some [101, 110, 99, 58, 49, 50], some [116], some [115]⟩
        (Authentication.new [98, 111, 98] [115, 101, 99, 114, 101, 116]) =
          some ApiError.authenticationFailed) ∧
    (∀ m, authenticate ⟨[98, 111, 98], some [101, 110, 99, 58, 49, 50], some [116], some [115]⟩
        (Authentication.new [98, 111, 98] [115, 101, 99, 114, 101, 116]) ≠
      some (ApiError.missingParameter m)) :=
  ⟨by decide,
   (c4_enc_auth_verdict [98, 111, 98] [115, 101, 99, 114, 101, 116] [98, 111, 98]
      [101, 110, 99, 58, 49, 50] (some [116]) (some [115]) (by decide)).2.1,
   (c4_enc_auth_verdict [98, 111, 98] [115, 101, 99, 114, 101, 116] [98, 111, 98]
      [101, 110, 99, 58, 49, 50] (some [116]) (some [115]) (by decide)).2.2.2.1⟩

/-- Claim C5: with p absent and both t and s present, the guard accepts
exactly when t equals the lowercase hex MD5 of password ++ s and u matches
the username; otherwise AuthenticationFailed (code 40); with p absent and t
or s missing the verdict is MissingParameter (code 10). -/
theorem c5_token_auth (username password u t s : List Nat) :
    (authenticate ⟨u, none, some t, some s⟩ (Authentication.new username password) = none ↔
      t = md5Hex (password ++ s) ∧ u = username) ∧
    (authenticate ⟨u, none, some t, some s⟩ (Authentication.new username password) = none ∨
      authenticate ⟨u, none, some t, some s⟩ (Authentication.new username password) =
        some ApiError.authenticationFailed) ∧
    ApiError.authenticationFailed.code = 40 ∧
    authenticate ⟨u, none, some t, none⟩ (Authentication.new username password) =
      some (ApiError.missingParameter "either username or password is missing") ∧
    authenticate ⟨u, none, none, some s⟩ (Authentication.new username password) =
      some (ApiError.missingParameter "either username or password is missing") ∧
    authenticate ⟨u, none, none, none⟩ (Authentication.new username password) =
      some (ApiError.missingParameter "either username or password is missing") ∧
    (ApiError.missingParameter "either username or password is missing").code = 10 := by
  refine ⟨?_, ?_, rfl, rfl, rfl, rfl, rfl⟩
  · rw [authenticate_token]
    split_ifs with h <;> simp [h]
  · rw [authenticate_token]
    split_ifs <;> simp

/-- Witness for C5: username bob, password secret, salt xyz, and the genuine
MD5 token. -/
theorem c5_token_auth_witness :
    authenticate ⟨[98, 111, 98], none,
        some (md5Hex ([115, 101, 99, 114, 101, 116] ++ [120, 121, 122])), some [120, 121, 122]⟩
      (Authentication.new [98, 111, 98] [115, 101, 99, 114, 101, 116]) = none :=
  (c5_token_auth [98, 111, 98] [115, 101, 99, 114, 101, 116] [98, 111, 98]
      (md5Hex ([115, 101, 99, 114, 101, 116] ++ [120, 121, 122])) [120, 121, 122]).1.mpr
    ⟨rfl, rfl⟩

/-- Claim C6: the cover-art handler fetches chunks at the offset equal to the
accumulated length until the accumulated length reaches the reported total
size; the assembled body is the full artwork regardless of how the backend
splits it into chunks, with the backend-reported MIME type attached. -/
theorem c6_cover_art_assembly (art : List Nat) (mime : Option (List Nat)) (csize : Nat → Nat)
    (fuel : Nat) (hc : ∀ off, off < art.length → 0 < csize off)
    (hfuel : art.length < fuel) :
    getCoverArtLoop (chunkBackend art mime csize) fuel [] = some (art, mime) :=
  getCoverArtLoop_chunked art mime csize fuel hc hfuel

/-- Witness for C6: the spec's 300-byte example, served in chunks of 100 and
in one chunk of 300, assembling to the same result. -/
theorem c6_cover_art_assembly_witness :
    getCoverArtLoop (chunkBackend (List.range 300) (some [105]) (fun _ => 100)) 301 [] =
      some (List.range 300, some [105]) ∧
    getCoverArtLoop (chunkBackend (List.range 300) (some [105]) (fun _ => 300)) 301 [] =
      some (List.range 300, some [105]) :=
  ⟨c6_cover_art_assembly _ _ _ _ (fun _ _ => by omega) (by simp),
   c6_cover_art_assembly _ _ _ _ (fun _ _ => by omega) (by simp)⟩

/-- Counterexample to C7 as stated: the token of the valid ArtistID with
name "aa?" contains the character '/' (47), which is not in the URL-safe
base64 alphabet; the code's engine uses `alphabet::STANDARD`. -/
theorem c7_counterexample :
    ValidBytes [97, 97, 63] ∧
    47 ∈ ArtistID.intoString ⟨[97, 97, 63]⟩ ∧
    isUrlSafeB64Char 47 = false ∧ (47 : Nat) ≠ 61 := by decide

/-- Claim C7 (amended): every valid entity-ID token consists of characters
of the STANDARD base64 alphabet (A-Z, a-z, 0-9, '+', '/') plus '=' padding,
over the canonical compact JSON serialization of the variant's fields. -/
theorem c7_token_alphabet :
    (∀ a : ArtistID, ValidBytes a.name →
      ∀ c ∈ ArtistID.intoString a, isStdB64Char c = true ∨ c = 61) ∧
    (∀ a : AlbumID, ValidBytes a.name → ValidBytes a.artist →
      ∀ c ∈ AlbumID.intoString a, isStdB64Char c = true ∨ c = 61) ∧
    (∀ a : SongID, ValidBytes a.path →
      ∀ c ∈ SongID.intoString a, isStdB64Char c = true ∨ c = 61) ∧
    (∀ a : PlaylistID, ValidBytes a.name →
      ∀ c ∈ PlaylistID.intoString a, isStdB64Char c = true ∨ c = 61) ∧
    (∀ a : CoverArtID, a.Valid →
      ∀ c ∈ CoverArtID.intoString a, isStdB64Char c = true ∨ c = 61) :=
  ⟨fun _ h => b64Encode_chars _ (jsonObj1_valid (by decide) h),
   fun _ hn ha => b64Encode_chars _ (jsonObj2_valid (by decide) hn (by decide) ha),
   fun _ h => b64Encode_chars _ (jsonObj1_valid (by decide) h),
   fun _ h => b64Encode_chars _ (jsonObj1_valid (by decide) h),
   fun a h => by
     rcases a with p | n
     · exact b64Encode_chars _ (jsonObj1_valid (by decide) h)
     · exact b64Encode_chars _ (jsonObj1_valid (by decide) h)⟩

/-- Witness for the amended C7 at the same concrete token character. -/
theorem c7_token_alphabet_witness :
    isStdB64Char 47 = true ∨ (47 : Nat) = 61 :=
  c7_token_alphabet.1 ⟨[97, 97, 63]⟩ (by decide) 47 (by decide)

/-- Counterexample to C8 as stated: for the request with format "flac" the
handler does return the unsupported-format error, but the source byte stream
has already been opened (the getSong effect precedes the rejection),
contradicting the claim that rejection happens before any stream is opened. -/
theorem c8_counterexample :
    (stream ⟨⟨[97]⟩, none, some "flac"⟩ (fun _ => Except.ok ())).2 =
      Except.error (ApiError.genericError (some "unsupported format")) ∧
    StreamEffect.getSong [97] ∈ (stream ⟨⟨[97]⟩, none, some "flac"⟩ (fun _ => Except.ok ())).1 := by
  constructor
  · rfl
  · simp [stream]

/-- Claim C8 (amended): a present format that is neither raw nor ogg is
rejected with GenericError (code 0) naming the format unsupported, and no
transcoding subprocess is ever spawned — but only after the source byte
stream has been opened. -/
theorem c8_unsupported_format (q : StreamQuery) (lib : List Nat → Except ApiError Unit)
    (f : String) (hf : q.format = some f) (hraw : f ≠ "raw") (hogg : f ≠ "ogg")
    (hlib : lib q.song.path = Except.ok ()) :
    (stream q lib).2 = Except.error (ApiError.genericError (some "unsupported format")) ∧
    (ApiError.genericError (some "unsupported format")).code = 0 ∧
    (∀ br, StreamEffect.spawnFfmpeg br ∉ (stream q lib).1) ∧
    StreamEffect.getSong q.song.path ∈ (stream q lib).1 := by
  simp only [stream, hlib, hf]
  rw [if_neg hraw, if_neg hogg]
  refine ⟨rfl, rfl, ?_, by simp⟩
  intro br hbr
  simp at hbr

/-- Witness for the amended C8 at format "flac". -/
theorem c8_unsupported_format_witness :
    (stream ⟨⟨[97]⟩, none, some "flac"⟩ (fun _ => Except.ok ())).2 =
      Except.error (ApiError.genericError (some "unsupported format")) ∧
    (ApiError.genericError (some "unsupported format")).code = 0 ∧
    (∀ br, StreamEffect.spawnFfmpeg br ∉
      (stream ⟨⟨[97]⟩, none, some "flac"⟩ (fun _ => Except.ok ())).1) ∧
    StreamEffect.getSong [97] ∈ (stream ⟨⟨[97]⟩, none, some "flac"⟩ (fun _ => Except.ok ())).1 :=
  c8_unsupported_format ⟨⟨[97]⟩, none, some "flac"⟩ (fun _ => Except.ok ()) "flac"
    rfl (by decide) (by decide) rfl

/-- Claim C9: prefixing any CoverArtID token with the playlist-compat marker
"pl-" decodes to exactly the same result as the unprefixed token. -/
theorem c9_cover_art_marker (t : List Nat) :
    CoverArtID.fromString ([112, 108, 45] ++ t) = CoverArtID.fromString t := by
  have hm : trimStartPl ([112, 108, 45] ++ t) = trimStartPl t := by
    simp [trimStartPl]
  unfold CoverArtID.fromString
  rw [hm]

/-- Claim C10: a nonzero requested maximum bitrate strictly below the
smallest ladder entry selects the smallest entry, 96 — no error and no
fallback to the ladder maximum. -/
theorem c10_sub_ladder_minimum (b : Nat) (h1 : 0 < b) (h2 : b < 96) :
    selectBitrate (some b) = 96 :=
  selectBitrate_below96 b h1 h2

/-- Witness for C10 at a requested maximum of 50. -/
theorem c10_sub_ladder_minimum_witness : selectBitrate (some 50) = 96 :=
  c10_sub_ladder_minimum 50 (by omega) (by omega)

end Mpdsonic
